import Mathlib

/-!
Verification of the Pico W countdown-timer control loop (`pcw_timer.py`).

The program is a single-threaded MicroPython event loop exposing a countdown
timer over HTTP from a self-hosted access point.  This file gives a shallow
embedding of its data model and operations:

* bytes / str values are modelled as `List Char` (the traffic is ASCII; the
  UTF-8 decode step of the source is therefore the identity and a decode
  failure is not representable);
* `time.ticks_ms` timestamps are naturals below `TICKS_PERIOD`, with the
  MicroPython wraparound-safe `ticks_add` / `ticks_diff` arithmetic on them;
* the mutable globals (`deadline_ms`, `running`, the external LED) form a
  `SysState` record threaded explicitly through the operations;
* socket reads are oracles (`FirstRecv`, `RecvResult`) supplying what each
  `recv` call would have returned, and the per-connection handling returns
  the list of socket actions (`send` / `close`) it performs;
* the wireless driver is an oracle record (`APDriver`) whose calls either
  return a value or raise, and code that may raise returns `Except`.
-/

/-! ### Byte strings

`List Char` stands for the Python `bytes` / `str` values.  `bs` converts a
Lean string literal.  The `py`-prefixed helpers reproduce the semantics of
the Python `split` / `strip` / `lower` / `startswith` operations used by the
source.  Splitting uses explicit fuel (the length of the input suffices), so
every definition is structural and kernel-evaluable.
-/

/-- Bytes of a string literal (ASCII). -/
def bs (s : String) : List Char := s.data

/-- Python `b.startswith(pre)` on byte strings. -/
def isPfx : List Char → List Char → Bool
  | [], _ => true
  | _ :: _, [] => false
  | a :: as, b :: rest => a = b && isPfx as rest

/-- Fuel-driven worker for `pySplitOnce`. -/
def splitOnceFuel (sep : List Char) : Nat → List Char → List Char →
    Option (List Char × List Char)
  | 0, _, _ => none
  | fuel + 1, s, acc =>
    if isPfx sep s then some (acc.reverse, s.drop sep.length)
    else
      match s with
      | [] => none
      | c :: rest => splitOnceFuel sep fuel rest (c :: acc)

/-- Python `s.split(sep, 1)` when `sep` occurs in `s`: the parts before and
after the first occurrence of `sep`; `none` when `sep` does not occur
(also deciding Python's `sep in s` test). -/
def pySplitOnce (sep s : List Char) : Option (List Char × List Char) :=
  splitOnceFuel sep (s.length + 1) s []

/-- Fuel-driven worker for `pySplit`. -/
def splitFuel (sep : List Char) : Nat → List Char → List Char → List (List Char)
  | 0, s, acc => [acc.reverse ++ s]
  | fuel + 1, s, acc =>
    if isPfx sep s then acc.reverse :: splitFuel sep fuel (s.drop sep.length) []
    else
      match s with
      | [] => [acc.reverse]
      | c :: rest => splitFuel sep fuel rest (c :: acc)

/-- Python `s.split(sep)` with a non-empty separator. -/
def pySplit (sep s : List Char) : List (List Char) :=
  splitFuel sep (s.length + 1) s []

/-- Whitespace as recognised by Python's `strip`. -/
def isPySpace (c : Char) : Bool :=
  c = ' ' || c = '\t' || c = '\n' || c = '\r' || c = '\x0b' || c = '\x0c'

/-- Python `s.strip()`. -/
def pyStrip (s : List Char) : List Char :=
  ((s.dropWhile isPySpace).reverse.dropWhile isPySpace).reverse

/-- ASCII lower-casing of one byte (Python `bytes.lower` on ASCII data). -/
def lowerB (c : Char) : Char :=
  if 'A' ≤ c ∧ c ≤ 'Z' then Char.ofNat (c.toNat + 32) else c

/-- Python `s.lower()` on a byte string. -/
def lowerL (s : List Char) : List Char := s.map lowerB

/-- Accumulating decimal-digit reader: `none` on the first non-digit. -/
def digitsToNatAux : Nat → List Char → Option Nat
  | acc, [] => some acc
  | acc, c :: rest =>
    if '0' ≤ c ∧ c ≤ '9' then digitsToNatAux (acc * 10 + (c.toNat - 48)) rest
    else none

/-- Non-empty all-digit string to a natural, else `none`. -/
def digitsToNat : List Char → Option Nat
  | [] => none
  | ds => digitsToNatAux 0 ds

/-- Python `int(s)` (base 10): strip whitespace, optional sign, digits;
`none` models the `ValueError` on anything else. -/
def parseIntPy (s : List Char) : Option Int :=
  match pyStrip s with
  | '-' :: ds => (digitsToNat ds).map (fun n => -(n : Int))
  | '+' :: ds => (digitsToNat ds).map (fun n => (n : Int))
  | ds => (digitsToNat ds).map (fun n => (n : Int))

/-- Fuel-driven worker for `natToBytes`. -/
def natToBytesAux : Nat → Nat → List Char
  | 0, _ => []
  | fuel + 1, n =>
    if n < 10 then [Char.ofNat (48 + n)]
    else natToBytesAux fuel (n / 10) ++ [Char.ofNat (48 + n % 10)]

/-- Decimal rendering of a natural (Python `str(n)` / `"%d" % n`). -/
def natToBytes (n : Nat) : List Char := natToBytesAux (n + 1) n

/-! ### Clock adapter

MicroPython's `time.ticks_ms` counts milliseconds modulo `TICKS_PERIOD`
(2^30 on this port); `ticks_add` and `ticks_diff` are the wraparound-safe
add and signed difference from its `time` module.
-/

/-- Modulus of the millisecond tick counter. -/
def TICKS_PERIOD : Int := 1073741824

/-- MicroPython `time.ticks_add`. -/
def ticks_add (t : Nat) (delta : Int) : Nat :=
  (((t : Int) + delta) % TICKS_PERIOD).toNat

/-- MicroPython `time.ticks_diff`: signed difference in
`[-TICKS_PERIOD/2, TICKS_PERIOD/2)`. -/
def ticks_diff (a b : Nat) : Int :=
  if ((a : Int) - (b : Int)) % TICKS_PERIOD < TICKS_PERIOD / 2 then
    ((a : Int) - (b : Int)) % TICKS_PERIOD
  else
    ((a : Int) - (b : Int)) % TICKS_PERIOD - TICKS_PERIOD

/-- Adding a small non-negative delta and taking `ticks_diff` against the
original timestamp recovers the delta, for any timestamp. -/
theorem ticks_diff_ticks_add (t : Nat) (k : Int) (h0 : 0 ≤ k)
    (h1 : k < TICKS_PERIOD / 2) : ticks_diff (ticks_add t k) t = k := by
  unfold ticks_diff ticks_add TICKS_PERIOD
  have hnn : (0 : Int) ≤ ((t : Int) + k) % 1073741824 := by omega
  rw [Int.toNat_of_nonneg hnn]
  simp only [TICKS_PERIOD] at h1
  split <;> omega

/-! ### Timer state machine

The globals `deadline_ms` and `running` of the source, together with the
external LED (the completion indicator, `led.value(...)` in the source,
`true` = on), as one record.  The onboard heartbeat LED is a distinct pin
never touched by these operations and is not part of the record.
-/

/-- Globals `deadline_ms` (a tick timestamp, `none` initially) and
`running`. -/
structure TimerState where
  deadline_ms : Option Nat
  running : Bool
deriving DecidableEq, Repr

/-- Timer globals plus the completion-indicator LED level. -/
structure SysState where
  timer : TimerState
  led : Bool
deriving DecidableEq, Repr

/-- State at process start: `deadline_ms = None`, `running = False`,
`led.value(0)`. -/
def init_state : SysState :=
  { timer := { deadline_ms := none, running := false }, led := false }

/-- Configured maximum timer duration (`MAX_SECONDS = 3600`). -/
def MAX_SECONDS : Int := 3600

/-- Source `set_timer(seconds)`: clamp below by 1 and above by
`MAX_SECONDS`, set the deadline `seconds*1000` ms from `now`, start
running, indicator off. -/
def set_timer (now : Nat) (seconds : Int) (s : SysState) : SysState :=
  let s1 := if seconds < 1 then 1 else seconds
  let s2 := if s1 > MAX_SECONDS then MAX_SECONDS else s1
  { s with
    timer := { deadline_ms := some (ticks_add now (s2 * 1000)), running := true },
    led := false }

/-- Source `stop_timer()`: clear `running` only. -/
def stop_timer (s : SysState) : SysState :=
  { s with timer := { s.timer with running := false } }

/-- Source `remaining_seconds()`: 0 unless running with a set deadline and a
positive difference, else `math.ceil(diff / 1000)`. -/
def remaining_seconds (now : Nat) (s : SysState) : Nat :=
  match s.timer.running, s.timer.deadline_ms with
  | true, some d =>
    if ticks_diff d now ≤ 0 then 0 else ((ticks_diff d now).toNat + 999) / 1000
  | _, _ => 0

/-- Source `update_timer()` (the per-iteration tick): on expiry of a running
timer, stop running and switch the completion indicator on. -/
def update_timer (now : Nat) (s : SysState) : SysState :=
  match s.timer.running, s.timer.deadline_ms with
  | true, some d =>
    if ticks_diff d now ≤ 0 then
      { s with timer := { s.timer with running := false }, led := true }
    else s
  | _, _ => s

/-! ### HTTP helpers

Mirrors of `http_response`, `header_value` and `parse_form` from the source.
A `Response` records the three arguments of each `http_response` call site;
`http_response` renders the full framed reply bytes.
-/

/-- Status line, content type and body of one `http_response(...)` call. -/
structure Response where
  code : List Char
  content_type : List Char
  body : List Char
deriving DecidableEq, Repr

/-- Source `http_response(body, content_type, code)`: the framed reply with
exact `Content-Length`, cache-disabling headers and `Connection: close`. -/
def http_response (r : Response) : List Char :=
  bs "HTTP/1.1 " ++ r.code ++ bs "\r\nContent-Type: " ++ r.content_type ++
  bs "\r\nContent-Length: " ++ natToBytes r.body.length ++
  bs "\r\nCache-Control: no-store, no-cache, must-revalidate, max-age=0\r\nPragma: no-cache\r\nConnection: close\r\n\r\n" ++
  r.body

/-- Worker of `header_value`: scan the header lines for the first whose
lower-cased form starts with `target` (the lower-cased name plus `":"`),
and return the stripped text after the first `":"` of that line. -/
def find_header : List (List Char) → List Char → Option (List Char)
  | [], _ => none
  | line :: rest, target =>
    if isPfx target (lowerL line) then
      match pySplitOnce [':'] line with
      | some p => some (pyStrip p.2)
      | none => none
    else find_header rest target

/-- Source `header_value(req_bytes, name_bytes)`: look the named header up
(case-insensitively) among the lines before the first blank line, skipping
the request line; `none` when absent. -/
def header_value (req name : List Char) : Option (List Char) :=
  let head :=
    match pySplitOnce (bs "\r\n\r\n") req with
    | some p => p.1
    | none => req
  find_header (pySplit (bs "\r\n") head).tail (lowerL name ++ [':'])

/-- Python dict assignment `kv[k] = v` on an association list: the last
write to a key wins. -/
def dict_set (kv : List (List Char × List Char)) (k v : List Char) :
    List (List Char × List Char) :=
  if kv.any (fun p => p.1 = k) then
    kv.map (fun p => if p.1 = k then (p.1, v) else p)
  else kv ++ [(k, v)]

/-- Python `kv.get(k)` (no default): first binding of `k`. -/
def dict_find : List (List Char × List Char) → List Char → Option (List Char)
  | [], _ => none
  | p :: rest, k => if p.1 = k then some p.2 else dict_find rest k

/-- Python `kv.get(k, dflt)`. -/
def dict_getD (kv : List (List Char × List Char)) (k dflt : List Char) :
    List Char :=
  (dict_find kv k).getD dflt

/-- Source `parse_form(body_bytes)`: split on `&`, keep the pairs containing
`=`, split each at the first `=`, insert into a dict.  (The source's UTF-8
decode is the identity on this byte model.) -/
def parse_form (body : List Char) : List (List Char × List Char) :=
  (pySplit ['&'] body).foldl
    (fun kv p =>
      match pySplitOnce ['='] p with
      | some q => dict_set kv q.1 q.2
      | none => kv)
    []

/-! ### Per-connection request handling

`FirstRecv` is what the first `cl.recv(2048)` produced (`err` models the
`OSError` branch), `RecvResult` what each later body read produced.  The
handling of one accepted connection returns the successor state and the
ordered socket actions; the trailing `SockAction.close` of every branch is the
`finally: cl.close()` of the source.
-/

/-- Outcome of one `cl.recv(2048)` during the body-completion loop. -/
inductive RecvResult where
  | data (chunk : List Char)
  | err
deriving DecidableEq, Repr

/-- Outcome of the first `cl.recv(2048)` of a connection. -/
inductive FirstRecv where
  | ok (req : List Char)
  | err
deriving DecidableEq, Repr

/-- One socket side effect of connection handling. -/
inductive SockAction where
  | send (bytes : List Char)
  | close
deriving DecidableEq, Repr

/-- Source request-line parse: text before the first `"\r\n"`, split on
single spaces into exactly method, path and version (anything else raises,
yielding `none`), with the query string stripped from the path at the first
`"?"`. -/
def parse_request_line (req : List Char) : Option (List Char × List Char) :=
  let line :=
    match pySplitOnce (bs "\r\n") req with
    | some p => p.1
    | none => req
  match pySplit [' '] line with
  | [m, p, _v] =>
    some (m,
      match pySplitOnce ['?'] p with
      | some q => q.1
      | none => p)
  | _ => none

/-- Declared body length of a `/set` request: `Content-Length` header value,
with a missing header, an empty value or a failed `int(...)` all giving 0. -/
def clen_of (req : List Char) : Int :=
  match header_value req (bs "Content-Length") with
  | none => 0
  | some v =>
    if v = [] then 0
    else
      match parseIntPy v with
      | some n => n
      | none => 0

/-- Body bytes already inside the first chunk: the part after the first
`"\r\n\r\n"`, or empty when there is none. -/
def body0_of (req : List Char) : List Char :=
  match pySplitOnce (bs "\r\n\r\n") req with
  | some p => p.2
  | none => []

/-- Source body-completion loop: while the collected body is shorter than
the declared length, append the next read; an empty read or a read error
stops the loop, keeping what was collected.  An exhausted oracle stands for
the read that would have timed out. -/
def read_body (clen : Int) : List Char → List RecvResult → List Char
  | body, [] => body
  | body, r :: rest =>
    if (body.length : Int) < clen then
      match r with
      | RecvResult.data chunk =>
        if chunk = [] then body else read_body clen (body ++ chunk) rest
      | RecvResult.err => body
    else body

/-- Seconds requested by a `/set` body: `int(kv.get("sec", "1"))` with 1 on
a `ValueError`. -/
def sec_of (body : List Char) : Int :=
  match parseIntPy (dict_getD (parse_form body) (bs "sec") (bs "1")) with
  | some n => n
  | none => 1

/-- Source `POST /set` branch: complete the body, parse the `sec` field,
start the timer, answer `200 OK` plain text. -/
def handle_set (now : Nat) (req : List Char) (recvs : List RecvResult)
    (s : SysState) : SysState × Response :=
  (set_timer now (sec_of (read_body (clen_of req) (body0_of req) recvs)) s,
   Response.mk (bs "200 OK") (bs "text/plain") (bs "OK\n"))

/-- Static page served on `GET /` (markup abbreviated: the page content is
the external static-content collaborator and no claim concerns it). -/
def HTML : List Char := bs "<!doctype html><html>PICO TIMER</html>"

/-- Source `GET /status` body:
`'\x7b"running":%s,"remaining":%d,"led":%d\x7d\n'`. -/
def status_body (now : Nat) (s : SysState) : List Char :=
  bs "\x7b\"running\":" ++ (if s.timer.running then bs "true" else bs "false") ++
  bs ",\"remaining\":" ++ natToBytes (remaining_seconds now s) ++
  bs ",\"led\":" ++ (if s.led then bs "1" else bs "0") ++ bs "\x7d\n"

/-- Source route table: the if/elif chain on `(method, path_only)`. -/
def dispatch (now : Nat) (method path_only req : List Char)
    (recvs : List RecvResult) (s : SysState) : SysState × Response :=
  if method = bs "GET" ∧ path_only = bs "/" then
    (s, Response.mk (bs "200 OK") (bs "text/html; charset=utf-8") HTML)
  else if method = bs "GET" ∧ path_only = bs "/status" then
    (s, Response.mk (bs "200 OK") (bs "application/json") (status_body now s))
  else if method = bs "POST" ∧ path_only = bs "/set" then
    handle_set now req recvs s
  else if method = bs "POST" ∧ path_only = bs "/stop" then
    (stop_timer s, Response.mk (bs "200 OK") (bs "text/plain") (bs "OK\n"))
  else if method = bs "POST" ∧ path_only = bs "/ledoff" then
    ({ s with led := false }, Response.mk (bs "200 OK") (bs "text/plain") (bs "OK\n"))
  else
    (s, Response.mk (bs "404 Not Found") (bs "text/plain") (bs "Not Found\n"))

/-- Handling of one accepted connection (the `try/except/finally` block of
the main loop).  `fault` injects the "unexpected fault inside the handling
block" caught by `except Exception` (answered with a best-effort 500 whose
send may itself fail, `send500ok`); the final `SockAction.close` of every branch
is the unconditional `finally: cl.close()`. -/
def handle_connection (now : Nat) (first : FirstRecv) (recvs : List RecvResult)
    (fault send500ok : Bool) (s : SysState) : SysState × List SockAction :=
  if fault then
    (s, (if send500ok then
          [SockAction.send (http_response
            (Response.mk (bs "500 Internal Server Error") (bs "text/plain") (bs "Error\n")))]
         else []) ++ [SockAction.close])
  else
    match first with
    | FirstRecv.err => (s, [SockAction.close])
    | FirstRecv.ok req =>
      if req = [] then (s, [SockAction.close])
      else
        match parse_request_line req with
        | none =>
          (s, [SockAction.send (http_response
                 (Response.mk (bs "400 Bad Request") (bs "text/plain") (bs "Bad Request\n"))),
               SockAction.close])
        | some mp =>
          ((dispatch now mp.1 mp.2 req recvs s).1,
           [SockAction.send (http_response (dispatch now mp.1 mp.2 req recvs s).2),
            SockAction.close])

/-! ### Operations touching the shared state

Everything the event loop ever does to `SysState`: the per-iteration expiry
tick and the handling of one connection.
-/

/-- One state-touching step of the event loop. -/
inductive Op where
  | tick (now : Nat)
  | request (now : Nat) (first : FirstRecv) (recvs : List RecvResult)
      (fault send500ok : Bool)

/-- Effect of an `Op` on the shared state. -/
def applyOp (s : SysState) : Op → SysState
  | Op.tick now => update_timer now s
  | Op.request now first recvs fault send500ok =>
    (handle_connection now first recvs fault send500ok s).1

/-- Whether an `Op` is a request dispatched to `POST /set` or
`POST /ledoff` — the two commands the spec allows to switch the completion
indicator off. -/
def clears_indicator : Op → Bool
  | Op.tick _ => false
  | Op.request _ first _ fault _ =>
    if fault then false
    else
      match first with
      | FirstRecv.err => false
      | FirstRecv.ok req =>
        if req = [] then false
        else
          match parse_request_line req with
          | none => false
          | some mp =>
            decide ((mp.1 = bs "POST" ∧ mp.2 = bs "/set") ∨
                    (mp.1 = bs "POST" ∧ mp.2 = bs "/ledoff"))

/-! ### Access-point supervisor

`APDriver` is an oracle for the platform wireless driver `ap = WLAN(AP_IF)`:
each field is what the corresponding driver call would produce, `Except`
capturing that the call may raise (`PyError.oserror`).  `start_ap` in the
source contains no `try`, and the main loop invokes `ensure_ap` / `log_ap`
outside its `try` block, so these mirrors propagate errors via the `Except`
monad: an `Except.error` result of `loop_tick` is an exception reaching the
top level of the `while True:` loop, which terminates the process.
-/

/-- An exception raised by a platform call. -/
inductive PyError where
  | oserror
deriving DecidableEq, Repr

/-- Outcomes of the wireless-driver calls used by the supervisor. -/
structure APDriver where
  setActiveOff : Except PyError Unit
  setActiveOn : Except PyError Unit
  config : Except PyError Unit
  activeQuery : Except PyError Bool
  statusQuery : Except PyError Unit
  ifconfigQuery : Except PyError Unit

/-- Supervisory check interval (`AP_ENSURE_EVERY_MS`). -/
def AP_ENSURE_EVERY_MS : Int := 5000

/-- Status-log interval (`AP_LOG_EVERY_MS`). -/
def AP_LOG_EVERY_MS : Int := 5000

/-- Source wait loop of `start_ap`: up to 50 polls of `ap.active()`. -/
def ap_wait_loop (drv : APDriver) : Nat → Except PyError Unit
  | 0 => Except.ok ()
  | n + 1 => do
    let a ← drv.activeQuery
    if a then Except.ok () else ap_wait_loop drv n

/-- Source `start_ap()`: deactivate, reactivate, configure, poll for active,
log status.  No `try` anywhere: every driver failure escapes to the caller. -/
def start_ap (drv : APDriver) : Except PyError Unit := do
  drv.setActiveOff
  drv.setActiveOn
  drv.config
  ap_wait_loop drv 50
  let _ ← drv.activeQuery
  let _ ← drv.statusQuery
  drv.ifconfigQuery

/-- Source `ensure_ap()`: rate-limited by `AP_ENSURE_EVERY_MS`; when due and
the access point is inactive, call `start_ap` again.  Returns the new
`_last_ap_ensure`; no `try` here either. -/
def ensure_ap (drv : APDriver) (now last_ensure : Nat) : Except PyError Nat :=
  if ticks_diff now last_ensure < AP_ENSURE_EVERY_MS then Except.ok last_ensure
  else do
    let a ← drv.activeQuery
    if !a then do
      start_ap drv
      Except.ok now
    else Except.ok now

/-- Source `log_ap()`: rate-limited status log; the queries it prints may
raise, and no `try` protects them. -/
def log_ap (drv : APDriver) (now last_log : Nat) : Except PyError Nat :=
  if AP_LOG_EVERY_MS ≤ ticks_diff now last_log then do
    let _ ← drv.activeQuery
    let _ ← drv.statusQuery
    let _ ← drv.ifconfigQuery
    Except.ok now
  else Except.ok last_log

/-- Pre-accept portion of one `while True:` iteration: `update_timer()`,
`ensure_ap()`, `log_ap()` run with no surrounding failure boundary (the
`try` of the source only wraps the accepted connection); the heartbeat
toggle touches no modelled state and cannot raise. -/
def loop_tick (drv : APDriver) (now : Nat) (s : SysState)
    (last_ensure last_log : Nat) : Except PyError (SysState × Nat × Nat) := do
  let s2 := update_timer now s
  let le2 ← ensure_ap drv now last_ensure
  let ll2 ← log_ap drv now last_log
  Except.ok (s2, le2, ll2)

/-- A driver whose `ap.config(...)` call raises `OSError`; every other call
succeeds and reports the access point inactive. -/
def faulty_driver : APDriver :=
  { setActiveOff := Except.ok ()
    setActiveOn := Except.ok ()
    config := Except.error PyError.oserror
    activeQuery := Except.ok false
    statusQuery := Except.ok ()
    ifconfigQuery := Except.ok () }

/-! ### Supporting lemmas -/

/-- Ceiling of `k / 1000` over ℚ agrees with the rounded-up natural
division `(k + 999) / 1000`. -/
theorem ceil_div_thousand (k : Nat) :
    ⌈(k : ℚ) / 1000⌉ = ((k + 999) / 1000 : ℕ) := by
  set q := (k + 999) / 1000 with hq
  have hi1 : (q : Int) * 1000 - 1000 < (k : Int) := by omega
  have hi2 : (k : Int) ≤ (q : Int) * 1000 := by omega
  have hq1 : (q : ℚ) * 1000 - 1000 < (k : ℚ) := by exact_mod_cast hi1
  have hq2 : (k : ℚ) ≤ (q : ℚ) * 1000 := by exact_mod_cast hi2
  rw [Int.ceil_eq_iff]
  constructor
  · rw [lt_div_iff₀ (by norm_num : (0:ℚ) < 1000)]
    push_cast
    linarith
  · rw [div_le_iff₀ (by norm_num : (0:ℚ) < 1000)]
    push_cast
    linarith

/-- C4: `set_timer(seconds)` clamps `seconds` into `[1, 3600]`, sets the
deadline to `now()` plus the clamped value times 1000 ms, starts running and
switches the completion indicator off, for every integer input and every
prior state (being a total function, it never fails); in particular
`set_timer 0` acts exactly as `set_timer 1` and `set_timer 9999` exactly as
`set_timer 3600`. -/
theorem set_timer_clamps_and_starts (now : Nat) (seconds : Int) (s : SysState) :
    set_timer now seconds s =
      { timer := { deadline_ms := some (ticks_add now (max 1 (min seconds 3600) * 1000)),
                   running := true },
        led := false } ∧
    set_timer now 0 s = set_timer now 1 s ∧
    set_timer now 9999 s = set_timer now 3600 s := by
  refine ⟨?_, ?_, ?_⟩
  · simp only [set_timer, MAX_SECONDS]
    have h : (if (if seconds < 1 then (1:Int) else seconds) > 3600 then (3600:Int)
              else if seconds < 1 then 1 else seconds) = max 1 (min seconds 3600) := by
      split_ifs <;> omega
    rw [h]
  · norm_num [set_timer, MAX_SECONDS]
  · norm_num [set_timer, MAX_SECONDS]

/-- C5: `remaining_seconds` is 0 whenever the timer is not running; on a
running timer with a set deadline it is the ceiling of the millisecond
difference divided by 1000, floored at 0; and right after
`set_timer seconds` with `seconds` in `[1, 3600]`, at the same tick, it is
exactly `seconds`. -/
theorem remaining_seconds_spec :
    (∀ (now : Nat) (s : SysState), s.timer.running = false →
        remaining_seconds now s = 0) ∧
    (∀ (now d : Nat) (s : SysState), s.timer.running = true →
        s.timer.deadline_ms = some d →
        (remaining_seconds now s : Int) = max 0 ⌈((ticks_diff d now : Int) : ℚ) / 1000⌉) ∧
    (∀ (now : Nat) (seconds : Int) (s : SysState), 1 ≤ seconds → seconds ≤ 3600 →
        (remaining_seconds now (set_timer now seconds s) : Int) = seconds) := by
  refine ⟨?_, ?_, ?_⟩
  · intro now s h
    simp [remaining_seconds, h]
  · intro now d s h1 h2
    simp only [remaining_seconds, h1, h2]
    split_ifs with hd
    · have hq : ((ticks_diff d now : Int) : ℚ) / 1000 ≤ 0 :=
        div_nonpos_iff.mpr (Or.inr ⟨by exact_mod_cast hd, by norm_num⟩)
      have hc : ⌈((ticks_diff d now : Int) : ℚ) / 1000⌉ ≤ 0 :=
        Int.ceil_le.mpr (by simpa using hq)
      omega
    · have hpos : 0 < ticks_diff d now := by omega
      have hcast : ((ticks_diff d now : Int) : ℚ) = (((ticks_diff d now).toNat : Nat) : ℚ) := by
        rw [← Int.toNat_of_nonneg hpos.le]
        push_cast
        rw [Int.toNat_of_nonneg hpos.le]
      rw [hcast, ceil_div_thousand]
      omega
  · intro now seconds s h1 h2
    have hclamp : set_timer now seconds s =
        { timer := { deadline_ms := some (ticks_add now (seconds * 1000)), running := true },
          led := false } := by
      simp only [set_timer, MAX_SECONDS]
      rw [if_neg (by omega : ¬seconds < 1), if_neg (by omega : ¬seconds > 3600)]
    rw [hclamp]
    have hdiff : ticks_diff (ticks_add now (seconds * 1000)) now = seconds * 1000 :=
      ticks_diff_ticks_add now _ (by omega) (by unfold TICKS_PERIOD; omega)
    simp only [remaining_seconds]
    rw [hdiff, if_neg (by omega : ¬seconds * 1000 ≤ 0)]
    omega

/-- C5 witness: concrete instances of the three parts — an idle state, an
expired running state, and the round trip `set_timer 42` then
`remaining_seconds` at the same tick. -/
theorem remaining_seconds_spec_witness :
    remaining_seconds 0 init_state = 0 ∧
    (remaining_seconds 99 { timer := { deadline_ms := some 7, running := true },
                            led := false } : Int) =
      max 0 ⌈((ticks_diff 7 99 : Int) : ℚ) / 1000⌉ ∧
    (remaining_seconds 5 (set_timer 5 42 init_state) : Int) = 42 :=
  ⟨remaining_seconds_spec.1 0 init_state rfl,
   remaining_seconds_spec.2.1 99 7
     { timer := { deadline_ms := some 7, running := true }, led := false } rfl rfl,
   remaining_seconds_spec.2.2 5 42 init_state (by decide) (by decide)⟩

/-! ### Timer-state invariant -/

/-- The spec invariant on the timer globals: running implies the deadline is
set. -/
def TimerInv (s : SysState) : Prop :=
  s.timer.running = true → s.timer.deadline_ms ≠ none

/-- The invariant holds after `set_timer` unconditionally. -/
theorem timerInv_set_timer (now : Nat) (seconds : Int) (s : SysState) :
    TimerInv (set_timer now seconds s) := by
  simp [TimerInv, set_timer]

/-- The invariant holds after `stop_timer` unconditionally. -/
theorem timerInv_stop_timer (s : SysState) : TimerInv (stop_timer s) := by
  simp [TimerInv, stop_timer]

/-- The invariant is preserved by the per-iteration expiry check. -/
theorem timerInv_update_timer (now : Nat) (s : SysState) (h : TimerInv s) :
    TimerInv (update_timer now s) := by
  unfold update_timer
  cases hr : s.timer.running <;> cases hd : s.timer.deadline_ms <;>
    simp_all [TimerInv]
  split <;> simp_all

/-- Adjusting only the indicator level leaves the invariant intact. -/
theorem timerInv_set_led (s : SysState) (b : Bool) (h : TimerInv s) :
    TimerInv { s with led := b } := h

/-- Every route of the dispatch table preserves the invariant. -/
theorem timerInv_dispatch (now : Nat) (method path_only req : List Char)
    (recvs : List RecvResult) (s : SysState) (h : TimerInv s) :
    TimerInv (dispatch now method path_only req recvs s).1 := by
  unfold dispatch
  split_ifs
  · exact h
  · exact h
  · simp only [handle_set]
    exact timerInv_set_timer _ _ _
  · exact timerInv_stop_timer _
  · exact timerInv_set_led _ _ h
  · exact h

/-- Handling one connection preserves the invariant. -/
theorem timerInv_handle_connection (now : Nat) (first : FirstRecv)
    (recvs : List RecvResult) (fault send500ok : Bool) (s : SysState)
    (h : TimerInv s) :
    TimerInv (handle_connection now first recvs fault send500ok s).1 := by
  unfold handle_connection
  cases fault
  · cases first with
    | err => exact h
    | ok req =>
      by_cases hreq : req = [] <;> simp only [hreq, if_true, if_false]
      · simpa using h
      · simp only [Bool.false_eq_true, if_false, if_neg hreq]
        cases hp : parse_request_line req with
        | none => exact h
        | some mp => exact timerInv_dispatch now mp.1 mp.2 req recvs s h
  · simpa using h

/-- C6: the timer-state invariant (running implies a set deadline) holds in
the state created at process start and is preserved by every operation that
touches timer state: `set_timer` and `stop_timer` (reached through request
handling), and the per-iteration expiry check. -/
theorem timer_invariant_established_and_preserved :
    TimerInv init_state ∧
    ∀ (s : SysState) (op : Op), TimerInv s → TimerInv (applyOp s op) := by
  constructor
  · intro h
    cases h
  · intro s op h
    cases op with
    | tick now => exact timerInv_update_timer now s h
    | request now first recvs fault send500ok =>
      exact timerInv_handle_connection now first recvs fault send500ok s h

/-- C6 witness: the invariant, established at start, transported across a
concrete expiry tick. -/
theorem timer_invariant_established_and_preserved_witness :
    TimerInv (applyOp init_state (Op.tick 3)) :=
  timer_invariant_established_and_preserved.2 init_state (Op.tick 3)
    timer_invariant_established_and_preserved.1

/-- C2 (demonstrating the divergence): with a driver whose `ap.config` call
raises `OSError`, the supervisory interval elapsed and the access point
reported inactive, the failure raised inside `start_ap` escapes `ensure_ap`
and the unguarded pre-accept portion of the loop iteration as an uncaught
exception — it is not caught and logged inside the supervisor, so the
`while True:` loop does not keep running past it. -/
theorem ap_start_failure_escapes_supervisor :
    start_ap faulty_driver = Except.error PyError.oserror ∧
    ensure_ap faulty_driver 5000 0 = Except.error PyError.oserror ∧
    loop_tick faulty_driver 5000 init_state 0 0 = Except.error PyError.oserror :=
  ⟨rfl, rfl, rfl⟩

/-- Route dispatch evaluated at `POST /ledoff`: indicator forced off, timer
untouched, `200 OK` plain text. -/
theorem dispatch_ledoff (now : Nat) (req : List Char) (recvs : List RecvResult)
    (s : SysState) :
    dispatch now (bs "POST") (bs "/ledoff") req recvs s =
      ({ s with led := false },
       Response.mk (bs "200 OK") (bs "text/plain") (bs "OK\n")) := by
  unfold dispatch
  rw [if_neg (by decide), if_neg (by decide), if_neg (by decide),
    if_neg (by decide), if_pos (by decide)]

/-- Route dispatch evaluated at `GET /status`: state untouched, `200` JSON
body rendered from the current state. -/
theorem dispatch_status (now : Nat) (req : List Char) (recvs : List RecvResult)
    (s : SysState) :
    dispatch now (bs "GET") (bs "/status") req recvs s =
      (s, Response.mk (bs "200 OK") (bs "application/json") (status_body now s)) := by
  unfold dispatch
  rw [if_neg (by decide), if_pos (by decide)]

/-- Connection handling, unfolded on a non-empty first read with no injected
fault and a parsed request line. -/
theorem handle_connection_parsed (now : Nat) (req : List Char)
    (recvs : List RecvResult) (send500ok : Bool) (s : SysState)
    (mp : List Char × List Char) (hne : req ≠ [])
    (hp : parse_request_line req = some mp) :
    handle_connection now (FirstRecv.ok req) recvs false send500ok s =
      ((dispatch now mp.1 mp.2 req recvs s).1,
       [SockAction.send (http_response (dispatch now mp.1 mp.2 req recvs s).2),
        SockAction.close]) := by
  simp [handle_connection, hne, hp]

/-- C8: whenever the first request line does not split into exactly method,
path and version (`parse_request_line` yields `none`, e.g. on a single
garbage token), the processor answers `400 Bad Request` and aborts the
connection with the state untouched — no route action is dispatched. -/
theorem malformed_request_line_gets_400 (now : Nat) (req : List Char)
    (recvs : List RecvResult) (send500ok : Bool) (s : SysState)
    (hne : req ≠ []) (hbad : parse_request_line req = none) :
    handle_connection now (FirstRecv.ok req) recvs false send500ok s =
      (s, [SockAction.send (http_response
             (Response.mk (bs "400 Bad Request") (bs "text/plain") (bs "Bad Request\n"))),
           SockAction.close]) := by
  simp [handle_connection, hne, hbad]

/-- C8 witness: the single garbage token `garbage` (no space-separated
fields) fails the request-line parse and draws the 400 response. -/
theorem malformed_request_line_gets_400_witness :
    (bs "garbage" ≠ [] ∧ parse_request_line (bs "garbage") = none) ∧
    handle_connection 0 (FirstRecv.ok (bs "garbage")) [] false true init_state =
      (init_state,
       [SockAction.send (http_response
          (Response.mk (bs "400 Bad Request") (bs "text/plain") (bs "Bad Request\n"))),
        SockAction.close]) :=
  ⟨⟨by decide, by decide⟩,
   malformed_request_line_gets_400 0 (bs "garbage") [] true init_state
     (by decide) (by decide)⟩

/-- C9: a request parsed as `POST /ledoff` forces the completion indicator
off, answers `200 OK` plain text, and leaves the timer state unchanged —
`running`, `deadline_ms` and hence `remaining_seconds` (at any tick) are
identical before and after, whatever state the timer is in. -/
theorem ledoff_clears_indicator_frame (now now2 : Nat) (req : List Char)
    (recvs : List RecvResult) (send500ok : Bool) (s : SysState)
    (hne : req ≠ [])
    (hp : parse_request_line req = some (bs "POST", bs "/ledoff")) :
    (handle_connection now (FirstRecv.ok req) recvs false send500ok s).1.led = false ∧
    (handle_connection now (FirstRecv.ok req) recvs false send500ok s).1.timer = s.timer ∧
    remaining_seconds now2
        (handle_connection now (FirstRecv.ok req) recvs false send500ok s).1 =
      remaining_seconds now2 s ∧
    (handle_connection now (FirstRecv.ok req) recvs false send500ok s).2 =
      [SockAction.send (http_response
         (Response.mk (bs "200 OK") (bs "text/plain") (bs "OK\n"))),
       SockAction.close] := by
  rw [handle_connection_parsed now req recvs send500ok s _ hne hp]
  rw [dispatch_ledoff]
  exact ⟨rfl, rfl, rfl, rfl⟩

/-- C9 witness: `/ledoff` on an expired state (indicator on, timer stopped
at a set deadline): indicator off, timer fields and remaining time intact. -/
theorem ledoff_clears_indicator_frame_witness :
    (bs "POST /ledoff HTTP/1.1\r\n\r\n" ≠ [] ∧
     parse_request_line (bs "POST /ledoff HTTP/1.1\r\n\r\n") =
       some (bs "POST", bs "/ledoff")) ∧
    ((handle_connection 9 (FirstRecv.ok (bs "POST /ledoff HTTP/1.1\r\n\r\n")) [] false true
        { timer := { deadline_ms := some 4, running := false }, led := true }).1.led = false ∧
     (handle_connection 9 (FirstRecv.ok (bs "POST /ledoff HTTP/1.1\r\n\r\n")) [] false true
        { timer := { deadline_ms := some 4, running := false }, led := true }).1.timer =
       ({ timer := { deadline_ms := some 4, running := false }, led := true } : SysState).timer ∧
     remaining_seconds 11
         (handle_connection 9 (FirstRecv.ok (bs "POST /ledoff HTTP/1.1\r\n\r\n")) [] false true
           { timer := { deadline_ms := some 4, running := false }, led := true }).1 =
       remaining_seconds 11
         { timer := { deadline_ms := some 4, running := false }, led := true } ∧
     (handle_connection 9 (FirstRecv.ok (bs "POST /ledoff HTTP/1.1\r\n\r\n")) [] false true
        { timer := { deadline_ms := some 4, running := false }, led := true }).2 =
       [SockAction.send (http_response
          (Response.mk (bs "200 OK") (bs "text/plain") (bs "OK\n"))),
        SockAction.close]) :=
  ⟨⟨by decide, by decide⟩,
   ledoff_clears_indicator_frame 9 11 (bs "POST /ledoff HTTP/1.1\r\n\r\n") [] true
     { timer := { deadline_ms := some 4, running := false }, led := true }
     (by decide) (by decide)⟩

/-- C10: a request parsed as `GET /status` is a pure read — the entire
state, timer fields and indicator alike, is returned unchanged (so in
particular a passed deadline does not trigger the expiry transition here;
only the per-iteration tick does), and the reply is the `200` JSON
rendering of that state. -/
theorem status_is_pure_read (now : Nat) (req : List Char)
    (recvs : List RecvResult) (send500ok : Bool) (s : SysState)
    (hne : req ≠ [])
    (hp : parse_request_line req = some (bs "GET", bs "/status")) :
    handle_connection now (FirstRecv.ok req) recvs false send500ok s =
      (s, [SockAction.send (http_response
             (Response.mk (bs "200 OK") (bs "application/json") (status_body now s))),
           SockAction.close]) := by
  rw [handle_connection_parsed now req recvs send500ok s _ hne hp]
  rw [dispatch_status]

/-- C10 witness: `GET /status` against a running timer whose deadline has
already passed: the state comes back identical (still running) — the read
does not expire it. -/
theorem status_is_pure_read_witness :
    (bs "GET /status HTTP/1.1\r\n\r\n" ≠ [] ∧
     parse_request_line (bs "GET /status HTTP/1.1\r\n\r\n") =
       some (bs "GET", bs "/status")) ∧
    handle_connection 99999 (FirstRecv.ok (bs "GET /status HTTP/1.1\r\n\r\n")) [] false true
        { timer := { deadline_ms := some 5, running := true }, led := false } =
      ({ timer := { deadline_ms := some 5, running := true }, led := false },
       [SockAction.send (http_response
          (Response.mk (bs "200 OK") (bs "application/json")
            (status_body 99999
              { timer := { deadline_ms := some 5, running := true }, led := false }))),
        SockAction.close]) :=
  ⟨⟨by decide, by decide⟩,
   status_is_pure_read 99999 (bs "GET /status HTTP/1.1\r\n\r\n") [] true
     { timer := { deadline_ms := some 5, running := true }, led := false }
     (by decide) (by decide)⟩

/-- C3: on every exit path of per-connection handling — successful
response, empty first read, parse failure, read error on the first receive,
and injected unexpected fault (with or without the best-effort 500 send
succeeding) — the action trace ends with the close of the client socket and
contains no earlier close: the `finally` block runs last and once, so no
iteration leaves the connection open when the loop proceeds to the next
accept. -/
theorem connection_closed_on_every_path (now : Nat) (first : FirstRecv)
    (recvs : List RecvResult) (fault send500ok : Bool) (s : SysState) :
    ∃ pre, (handle_connection now first recvs fault send500ok s).2 =
        pre ++ [SockAction.close] ∧ SockAction.close ∉ pre := by
  unfold handle_connection
  cases fault
  · cases first with
    | ok req =>
      by_cases hreq : req = []
      · exact ⟨[], by simp [hreq], by simp⟩
      · cases hp : parse_request_line req with
        | none =>
          refine ⟨[SockAction.send (http_response
            (Response.mk (bs "400 Bad Request") (bs "text/plain") (bs "Bad Request\n")))],
            by simp [hreq, hp], by simp⟩
        | some mp =>
          refine ⟨[SockAction.send
            (http_response (dispatch now mp.1 mp.2 req recvs s).2)],
            by simp [hreq, hp], by simp⟩
    | err => exact ⟨[], by simp, by simp⟩
  · cases send500ok
    · exact ⟨[], by simp, by simp⟩
    · exact ⟨[SockAction.send (http_response
        (Response.mk (bs "500 Internal Server Error") (bs "text/plain") (bs "Error\n")))],
        by simp, by simp⟩

/-- Only an indicator that was already on survives route dispatch as on: no
route switches the indicator from off to on. -/
theorem dispatch_led_eq_true (now : Nat) (m p req : List Char)
    (recvs : List RecvResult) (s : SysState)
    (h : (dispatch now m p req recvs s).1.led = true) : s.led = true := by
  revert h
  unfold dispatch
  split_ifs <;> simp [handle_set, set_timer, stop_timer]

/-- Connection handling never switches the indicator from off to on. -/
theorem handle_connection_led_eq_true (now : Nat) (first : FirstRecv)
    (recvs : List RecvResult) (fault send500ok : Bool) (s : SysState)
    (h : (handle_connection now first recvs fault send500ok s).1.led = true) :
    s.led = true := by
  revert h
  unfold handle_connection
  cases fault
  · cases first with
    | ok req =>
      by_cases hreq : req = []
      · simp [hreq]
      · cases hp : parse_request_line req with
        | none => simp [hreq, hp]
        | some mp =>
          simp only [Bool.false_eq_true, if_false, if_neg hreq, hp]
          exact dispatch_led_eq_true now mp.1 mp.2 req recvs s
    | err => simp
  · cases send500ok <;> simp

/-- Dispatch to any route other than `POST /set` and `POST /ledoff` keeps an
indicator that is on, on. -/
theorem dispatch_led_preserved (now : Nat) (m p req : List Char)
    (recvs : List RecvResult) (s : SysState)
    (hcl : ¬((m = bs "POST" ∧ p = bs "/set") ∨ (m = bs "POST" ∧ p = bs "/ledoff")))
    (h : s.led = true) :
    (dispatch now m p req recvs s).1.led = true := by
  unfold dispatch
  split_ifs with h1 h2 h3 h4 h5
  · exact h
  · exact h
  · exact absurd (Or.inl h3) hcl
  · simpa [stop_timer] using h
  · exact absurd (Or.inr h5) hcl
  · exact h

/-- Handling a connection that does not dispatch to `POST /set` or
`POST /ledoff` keeps an indicator that is on, on. -/
theorem handle_connection_led_preserved (now : Nat) (first : FirstRecv)
    (recvs : List RecvResult) (fault send500ok : Bool) (s : SysState)
    (h : s.led = true)
    (hcl : clears_indicator (Op.request now first recvs fault send500ok) = false) :
    (handle_connection now first recvs fault send500ok s).1.led = true := by
  unfold handle_connection
  cases fault
  · cases first with
    | ok req =>
      by_cases hreq : req = []
      · simpa [hreq] using h
      · cases hp : parse_request_line req with
        | none => simpa [hreq, hp] using h
        | some mp =>
          simp only [clears_indicator, Bool.false_eq_true, if_false, if_neg hreq, hp] at hcl
          simp only [Bool.false_eq_true, if_false, if_neg hreq, hp]
          exact dispatch_led_preserved now mp.1 mp.2 req recvs s (by simpa using hcl) h
    | err => simpa using h
  · cases send500ok <;> simpa using h

/-- C1: when the timer is running with a set deadline and the difference to
`now` is nonpositive, the per-iteration tick stops the timer and turns the
completion indicator on; the tick is the only operation that turns the
indicator from off to on; and once on, the indicator stays on across every
operation except a request dispatched to `POST /set` (i.e. `set_timer`) or
to `POST /ledoff`. -/
theorem expiry_indicator_behaviour :
    (∀ (now d : Nat) (s : SysState), s.timer.running = true →
        s.timer.deadline_ms = some d → ticks_diff d now ≤ 0 →
        (update_timer now s).timer.running = false ∧ (update_timer now s).led = true) ∧
    (∀ (s : SysState) (op : Op), s.led = false → (applyOp s op).led = true →
        ∃ now, op = Op.tick now) ∧
    (∀ (s : SysState) (op : Op), s.led = true → clears_indicator op = false →
        (applyOp s op).led = true) := by
  refine ⟨?_, ?_, ?_⟩
  · intro now d s h1 h2 h3
    simp [update_timer, h1, h2, h3]
  · intro s op h1 h2
    cases op with
    | tick now => exact ⟨now, rfl⟩
    | request now first recvs fault send500ok =>
      have hled := handle_connection_led_eq_true now first recvs fault send500ok s h2
      rw [h1] at hled
      cases hled
  · intro s op h1 h2
    cases op with
    | tick now =>
      simp only [applyOp]
      unfold update_timer
      cases hr : s.timer.running <;> cases hd : s.timer.deadline_ms <;> simp_all
      split <;> simp_all
    | request now first recvs fault send500ok =>
      exact handle_connection_led_preserved now first recvs fault send500ok s h1 h2

/-- C1 witness: a concrete expiry tick (deadline 4, now 9) stopping the
timer and lighting the indicator; the same tick as the sole off-to-on
transition; and a later tick leaving an indicator that is on, on. -/
theorem expiry_indicator_behaviour_witness :
    (({ timer := { deadline_ms := some 4, running := true }, led := false }
        : SysState).timer.running = true ∧
      ticks_diff 4 9 ≤ 0 ∧
      (update_timer 9
        { timer := { deadline_ms := some 4, running := true }, led := false }).timer.running
        = false ∧
      (update_timer 9
        { timer := { deadline_ms := some 4, running := true }, led := false }).led = true) ∧
    ((applyOp { timer := { deadline_ms := some 4, running := true }, led := false }
        (Op.tick 9)).led = true ∧
      ∃ now, Op.tick 9 = Op.tick now) ∧
    (clears_indicator (Op.tick 9) = false ∧
      (applyOp { timer := { deadline_ms := some 4, running := false }, led := true }
        (Op.tick 9)).led = true) :=
  ⟨⟨rfl, by decide,
    expiry_indicator_behaviour.1 9 4
      { timer := { deadline_ms := some 4, running := true }, led := false } rfl rfl (by decide)⟩,
   ⟨by decide,
    expiry_indicator_behaviour.2.1
      { timer := { deadline_ms := some 4, running := true }, led := false } (Op.tick 9)
      rfl (by decide)⟩,
   ⟨rfl,
    expiry_indicator_behaviour.2.2
      { timer := { deadline_ms := some 4, running := false }, led := true } (Op.tick 9)
      rfl rfl⟩⟩

/-- C7: for `POST /set`, a missing or unparsable (or empty) `Content-Length`
header gives declared length 0; the body-completion loop stops as soon as
the collected body reaches the declared length or a read yields nothing or
errors, keeping whatever was collected (every reader below is a total
function — no hang); an absent or unparsable `sec` field falls back to 1;
and `handle_set` always calls `set_timer` with the parsed seconds and
answers `200 OK` plain text — never an error response for a short body. -/
theorem set_route_best_effort :
    (∀ req : List Char, header_value req (bs "Content-Length") = none →
        clen_of req = 0) ∧
    (∀ (req v : List Char), header_value req (bs "Content-Length") = some v →
        parseIntPy v = none → clen_of req = 0) ∧
    (∀ (clen : Int) (body : List Char) (recvs : List RecvResult),
        ((body.length : Int) ≥ clen → read_body clen body recvs = body) ∧
        (∀ rest, (body.length : Int) < clen →
            read_body clen body (RecvResult.err :: rest) = body) ∧
        (∀ rest, (body.length : Int) < clen →
            read_body clen body (RecvResult.data [] :: rest) = body) ∧
        body <+: read_body clen body recvs) ∧
    (∀ body : List Char, dict_find (parse_form body) (bs "sec") = none →
        sec_of body = 1) ∧
    (∀ (body v : List Char), dict_find (parse_form body) (bs "sec") = some v →
        parseIntPy v = none → sec_of body = 1) ∧
    (∀ (now : Nat) (req : List Char) (recvs : List RecvResult) (s : SysState),
        (handle_set now req recvs s).2 =
          Response.mk (bs "200 OK") (bs "text/plain") (bs "OK\n") ∧
        (handle_set now req recvs s).1 =
          set_timer now (sec_of (read_body (clen_of req) (body0_of req) recvs)) s) := by
  refine ⟨?_, ?_, ?_, ?_, ?_, ?_⟩
  · intro req h
    simp [clen_of, h]
  · intro req v h hp
    by_cases hv : v = [] <;> simp [clen_of, h, hp, hv]
  · intro clen body recvs
    refine ⟨?_, ?_, ?_, ?_⟩
    · intro hge
      cases recvs with
      | nil => rfl
      | cons r rest =>
        unfold read_body
        rw [if_neg (by omega)]
    · intro rest hlt
      unfold read_body
      rw [if_pos (by omega)]
    · intro rest hlt
      unfold read_body
      rw [if_pos (by omega)]
      simp
    · induction recvs generalizing body with
      | nil => exact List.prefix_rfl
      | cons r rest ih =>
        unfold read_body
        split
        · cases r with
          | data chunk =>
            by_cases hc : chunk = []
            · simp [hc]
            · simp only [hc, if_false]
              exact (List.prefix_append body chunk).trans (ih (body ++ chunk))
          | err => exact List.prefix_rfl
        · exact List.prefix_rfl
  · intro body h
    unfold sec_of dict_getD
    rw [h]
    decide
  · intro body v h hp
    unfold sec_of dict_getD
    rw [h]
    simp only [Option.getD_some]
    rw [hp]
  · intro now req recvs s
    exact ⟨rfl, rfl⟩

/-- C7 witness: a `/set` request without a `Content-Length` header, one with
the unparsable value `xx`, body reads stopped by a satisfied length, an
error, an empty read, a body without a `sec` field, one with the unparsable
`sec=zz`, and the concrete `200 OK` outcome. -/
theorem set_route_best_effort_witness :
    (header_value (bs "POST /set HTTP/1.1\r\n\r\n") (bs "Content-Length") = none ∧
     clen_of (bs "POST /set HTTP/1.1\r\n\r\n") = 0) ∧
    (header_value (bs "POST /set HTTP/1.1\r\nContent-Length: xx\r\n\r\n")
        (bs "Content-Length") = some (bs "xx") ∧
     parseIntPy (bs "xx") = none ∧
     clen_of (bs "POST /set HTTP/1.1\r\nContent-Length: xx\r\n\r\n") = 0) ∧
    (read_body 2 (bs "ab") [RecvResult.err] = bs "ab" ∧
     read_body 5 (bs "ab") [RecvResult.err] = bs "ab" ∧
     read_body 5 (bs "ab") [RecvResult.data []] = bs "ab" ∧
     bs "ab" <+: read_body 5 (bs "ab") [RecvResult.data (bs "cd")]) ∧
    (dict_find (parse_form (bs "x=1")) (bs "sec") = none ∧ sec_of (bs "x=1") = 1) ∧
    (dict_find (parse_form (bs "sec=zz")) (bs "sec") = some (bs "zz") ∧
     parseIntPy (bs "zz") = none ∧ sec_of (bs "sec=zz") = 1) ∧
    (handle_set 7 (bs "POST /set HTTP/1.1\r\n\r\n") [] init_state).2 =
      Response.mk (bs "200 OK") (bs "text/plain") (bs "OK\n") :=
  ⟨⟨by decide, set_route_best_effort.1 _ (by decide)⟩,
   ⟨by decide, by decide,
    set_route_best_effort.2.1 _ (bs "xx") (by decide) (by decide)⟩,
   ⟨(set_route_best_effort.2.2.1 2 (bs "ab") [RecvResult.err]).1 (by decide),
    (set_route_best_effort.2.2.1 5 (bs "ab") []).2.1 [] (by decide),
    (set_route_best_effort.2.2.1 5 (bs "ab") []).2.2.1 [] (by decide),
    (set_route_best_effort.2.2.1 5 (bs "ab") [RecvResult.data (bs "cd")]).2.2.2⟩,
   ⟨by decide, set_route_best_effort.2.2.2.1 _ (by decide)⟩,
   ⟨by decide, by decide,
    set_route_best_effort.2.2.2.2.1 _ (bs "zz") (by decide) (by decide)⟩,
   (set_route_best_effort.2.2.2.2.2 7 (bs "POST /set HTTP/1.1\r\n\r\n") [] init_state).1⟩
